import Mathlib

/-!
Shallow embedding of the Databricks hook
(`airflow/providers/databricks/hooks/databricks.py`) and proofs of the
behavioural properties its specification states: run-state predicates,
host normalisation, authentication selection, constructor validation,
and the retry loop of `_do_api_call`.
-/

/-- Errors the Python code can raise.  `airflowException` embeds
`AirflowException`, `valueError` embeds `ValueError` (raised by
`DatabricksHook.__init__`), and `attributeError` embeds the `AttributeError`
Python raises when an attribute is read from `None`. -/
inductive PyError where
  | airflowException (msg : String)
  | valueError (msg : String)
  | attributeError (msg : String)
deriving DecidableEq, Repr

/-- Embeds the module constant `RUN_LIFE_CYCLE_STATES`. -/
def RUN_LIFE_CYCLE_STATES : List String :=
  ["PENDING", "RUNNING", "TERMINATING", "TERMINATED", "SKIPPED", "INTERNAL_ERROR"]

/-- Embeds class `RunState`.  The constructor stores its three arguments
unchanged, exactly as `RunState.__init__` does.  `result_state` is an
`Option` because `get_run_state` passes Python `None` when the field is
absent from the response. -/
structure RunState where
  life_cycle_state : String
  result_state : Option String
  state_message : String
deriving DecidableEq, Repr

/-- Embeds the message built by `RunState.is_terminal` for an unrecognized
life cycle state. -/
def unexpectedStateMsg (lcs : String) : String :=
  "Unexpected life cycle state: " ++ lcs ++ ": If the state has " ++
    "been introduced recently, please check the Databricks user " ++
    "guide for troubleshooting information"

/-- Embeds property `RunState.is_terminal`: it raises `AirflowException`
when `life_cycle_state` is not in `RUN_LIFE_CYCLE_STATES`, and otherwise
returns membership in the tuple `(TERMINATED, SKIPPED, INTERNAL_ERROR)`. -/
def RunState.is_terminal (s : RunState) : Except PyError Bool :=
  if s.life_cycle_state ∉ RUN_LIFE_CYCLE_STATES then
    .error (.airflowException (unexpectedStateMsg s.life_cycle_state))
  else
    .ok (decide (s.life_cycle_state ∈ ["TERMINATED", "SKIPPED", "INTERNAL_ERROR"]))

/-- Embeds property `RunState.is_successful`: `self.result_state == 'SUCCESS'`.
Python equality between `None` and a string is `False`, which the `Option`
equality reproduces. -/
def RunState.is_successful (s : RunState) : Bool :=
  s.result_state == some "SUCCESS"

/-- Embeds `RunState.__eq__` applied to two `RunState` operands: the
conjunction of the three field equalities. -/
def RunState.beqRun (a b : RunState) : Bool :=
  a.life_cycle_state == b.life_cycle_state &&
    (a.result_state == b.result_state && a.state_message == b.state_message)

/-- Claim C5: for every `RunState` whose `life_cycle_state` is one of the six
recognized values, `is_terminal` returns `true` exactly for TERMINATED,
SKIPPED and INTERNAL_ERROR and `false` exactly for PENDING, RUNNING and
TERMINATING; for every other `life_cycle_state` it raises an error instead
of returning a value. -/
theorem runState_is_terminal_spec (s : RunState) :
    (s.is_terminal = .ok true ↔
      (s.life_cycle_state = "TERMINATED" ∨ s.life_cycle_state = "SKIPPED" ∨
        s.life_cycle_state = "INTERNAL_ERROR"))
    ∧ (s.is_terminal = .ok false ↔
      (s.life_cycle_state = "PENDING" ∨ s.life_cycle_state = "RUNNING" ∨
        s.life_cycle_state = "TERMINATING"))
    ∧ ((∃ e, s.is_terminal = .error e) ↔ s.life_cycle_state ∉ RUN_LIFE_CYCLE_STATES) := by
  unfold RunState.is_terminal
  by_cases h : s.life_cycle_state ∈ RUN_LIFE_CYCLE_STATES
  · rw [if_neg (not_not_intro h)]
    simp only [RUN_LIFE_CYCLE_STATES, List.mem_cons, List.not_mem_nil, or_false] at h
    rcases h with h | h | h | h | h | h <;>
      rw [h] <;> refine ⟨?_, ?_, ?_⟩ <;> simp [RUN_LIFE_CYCLE_STATES]
  · rw [if_pos h]
    simp only [RUN_LIFE_CYCLE_STATES, List.mem_cons, List.not_mem_nil, or_false,
      not_or] at h
    obtain ⟨h1, h2, h3, h4, h5, h6⟩ := h
    refine ⟨?_, ?_, ?_⟩ <;> simp [h1, h2, h3, h4, h5, h6, RUN_LIFE_CYCLE_STATES]

/-- Claim C9: `is_successful` returns `true` iff `result_state` is the string
SUCCESS, and `false` for every other value, the absent (`none`) value
included; being a total `Bool`-valued function it never raises. -/
theorem runState_is_successful_spec (s : RunState) :
    (s.is_successful = true ↔ s.result_state = some "SUCCESS")
    ∧ (s.is_successful = false ↔ s.result_state ≠ some "SUCCESS") := by
  by_cases h : s.result_state = some "SUCCESS" <;> simp [RunState.is_successful, h]

/-- Claim C10: constructing a `RunState` performs no validation: for every
triple of field values, an unrecognized `life_cycle_state` included, the
constructor stores the fields unchanged, `is_successful` and equality
comparison return plain booleans without raising, and the
unrecognized-state error appears only when `is_terminal` is evaluated. -/
theorem runState_no_construction_validation (lcs : String) (rs : Option String)
    (msg : String) (t : RunState) (h : lcs ∉ RUN_LIFE_CYCLE_STATES) :
    (RunState.mk lcs rs msg).life_cycle_state = lcs
    ∧ (RunState.mk lcs rs msg).result_state = rs
    ∧ (RunState.mk lcs rs msg).state_message = msg
    ∧ (RunState.mk lcs rs msg).is_successful = decide (rs = some "SUCCESS")
    ∧ RunState.beqRun (RunState.mk lcs rs msg) t =
        (decide (lcs = t.life_cycle_state) &&
          (decide (rs = t.result_state) && decide (msg = t.state_message)))
    ∧ (RunState.mk lcs rs msg).is_terminal =
        .error (.airflowException (unexpectedStateMsg lcs)) := by
  refine ⟨rfl, rfl, rfl, ?_, ?_, ?_⟩
  · by_cases hrs : rs = some "SUCCESS" <;> simp [RunState.is_successful, hrs]
  · by_cases e1 : lcs = t.life_cycle_state <;>
      by_cases e2 : rs = t.result_state <;>
      by_cases e3 : msg = t.state_message <;>
      simp [RunState.beqRun, e1, e2, e3]
  · simp [RunState.is_terminal, h]

/-- Instantiation of `runState_no_construction_validation` at the
unrecognized state BOGUS and a concrete comparison operand. -/
theorem runState_no_construction_validation_witness :
    (RunState.mk "BOGUS" none "m").life_cycle_state = "BOGUS"
    ∧ (RunState.mk "BOGUS" none "m").result_state = none
    ∧ (RunState.mk "BOGUS" none "m").state_message = "m"
    ∧ (RunState.mk "BOGUS" none "m").is_successful =
        decide ((none : Option String) = some "SUCCESS")
    ∧ RunState.beqRun (RunState.mk "BOGUS" none "m")
          (RunState.mk "TERMINATED" (some "SUCCESS") "done") =
        (decide ("BOGUS" = "TERMINATED") &&
          (decide ((none : Option String) = some "SUCCESS") &&
            decide ("m" = "done")))
    ∧ (RunState.mk "BOGUS" none "m").is_terminal =
        .error (.airflowException (unexpectedStateMsg "BOGUS")) :=
  runState_no_construction_validation "BOGUS" none "m"
    (RunState.mk "TERMINATED" (some "SUCCESS") "done") (by decide)

/-- Kinds of `requests` exceptions that matter to `_retryable_error`:
`ConnectionError`, `Timeout`, and every other `RequestException` subclass
(`HTTPError` raised by `raise_for_status` included). -/
inductive ReqExcKind where
  | connectionError
  | timeout
  | other
deriving DecidableEq, Repr

/-- The part of a `requests` response that `_do_api_call` reads on failure:
`status_code` and `content` (the body, modelled as a string). -/
structure HttpResponse where
  status_code : Nat
  content : String
deriving DecidableEq, Repr

/-- A raised `requests.exceptions.RequestException`: its subclass kind and
its `response` attribute, which is `None` when no response was received. -/
structure RequestException where
  kind : ReqExcKind
  response : Option HttpResponse
deriving DecidableEq, Repr

/-- Embeds the module function `_retryable_error`.  Python precedence makes
it `isinstance(...) or (response is not None and status_code >= 500)`; the
`match` reproduces the short circuit that never reads `status_code` when
`response` is `None`. -/
def _retryable_error (e : RequestException) : Bool :=
  (e.kind == .connectionError || e.kind == .timeout) ||
    match e.response with
    | some r => decide (500 ≤ r.status_code)
    | none => false

/-- Embeds the `raise AirflowException(f'Response: {e.response.content},
Status Code: {e.response.status_code}')` statement of the non-retryable
branch of `_do_api_call`.  When `e.response` is `None`, evaluating
`e.response.content` in Python raises `AttributeError` before the
`AirflowException` is ever built; the `none` arm records that error. -/
def nonRetryableRaise (e : RequestException) : PyError :=
  match e.response with
  | some r =>
      .airflowException
        ("Response: " ++ r.content ++ ", Status Code: " ++ toString r.status_code)
  | none => .attributeError "NoneType object has no attribute content"

/-- Embeds the retry-exhaustion message
`f'API requests to Databricks failed {self.retry_limit} times. Giving up.'`. -/
def retriesExhaustedMsg (retry_limit : Nat) : String :=
  "API requests to Databricks failed " ++ toString retry_limit ++
    " times. Giving up."

/-- One attempt of the `try` body of `_do_api_call`: either
`response.raise_for_status()` passed and `response.json()` produced a body
of type `α`, or a `RequestException` was raised. -/
inductive AttemptResult (α : Type) where
  | success (body : α)
  | failure (e : RequestException)

/-- Outcome of the whole `while True:` loop: a returned JSON body, a raised
error, or divergence (the loop never exits, possible only when
`retry_limit` is 0, a value the constructor rejects). -/
inductive CallOutcome (α : Type) where
  | ok (body : α)
  | error (e : PyError)
  | diverged

/-- Observable trace of one `_do_api_call`: its outcome, how many attempts
were made, and the list of `sleep` durations in order. -/
structure CallTrace (α : Type) where
  outcome : CallOutcome α
  attempts : Nat
  sleeps : List ℚ

/-- Embeds the `while True:` loop of `_do_api_call`, starting at attempt
number `attempt_num`.  A transport function gives each numbered attempt's
result.  The structure mirrors the source line by line: on success return
the body; on a non-retryable exception raise via `nonRetryableRaise`; on a
retryable one, if `attempt_num == retry_limit` raise the exhaustion error,
else increment the counter, `sleep(retry_delay)` and loop.  `fuel` bounds
the recursion; it is spent only on retries, so any `fuel` with
`retry_limit - attempt_num < fuel` is enough to rule out `diverged`. -/
def apiCallLoop (transport : Nat → AttemptResult α) (retry_limit : Nat)
    (retry_delay : ℚ) : Nat → Nat → CallTrace α
  | 0, _ => ⟨.diverged, 0, []⟩
  | fuel + 1, attempt_num =>
    match transport attempt_num with
    | .success body => ⟨.ok body, 1, []⟩
    | .failure e =>
      if _retryable_error e = false then
        ⟨.error (nonRetryableRaise e), 1, []⟩
      else if attempt_num = retry_limit then
        ⟨.error (.airflowException (retriesExhaustedMsg retry_limit)), 1, []⟩
      else
        let rest := apiCallLoop transport retry_limit retry_delay fuel (attempt_num + 1)
        ⟨rest.outcome, rest.attempts + 1, retry_delay :: rest.sleeps⟩

/-- Embeds `DatabricksHook._do_api_call` from the top of the retry loop
(`attempt_num = 1`): auth and URL resolution have no effect on the loop's
control flow, so the call is parametrised directly by the transport. -/
def _do_api_call (transport : Nat → AttemptResult α) (retry_limit : Nat)
    (retry_delay : ℚ) : CallTrace α :=
  apiCallLoop transport retry_limit retry_delay (retry_limit + 1) 1

/-- Embeds the configuration state `DatabricksHook.__init__` stores.
`retry_limit` is an `Int` because Python would accept a negative argument
value for checking. -/
structure DatabricksHook where
  databricks_conn_id : String
  timeout_seconds : Int
  retry_limit : Int
  retry_delay : ℚ
deriving DecidableEq, Repr

/-- Embeds `DatabricksHook.__init__`: raise `ValueError` when
`retry_limit < 1`, otherwise store the configuration. -/
def DatabricksHook.init (databricks_conn_id : String) (timeout_seconds : Int)
    (retry_limit : Int) (retry_delay : ℚ) : Except PyError DatabricksHook :=
  if retry_limit < 1 then
    .error (.valueError "Retry limit must be greater than equal to 1")
  else
    .ok ⟨databricks_conn_id, timeout_seconds, retry_limit, retry_delay⟩

/-- Claim C1 (failing input): a non-retryable `RequestException` that
carries no response object does abort on the first attempt, but with an
`AttributeError` from evaluating `e.response.content` on `None`, not with
the `AirflowException` carrying body and status that the specification
promises for every non-retryable failure. -/
theorem do_api_call_no_response_attribute_error :
    _do_api_call (α := Unit) (fun _ => .failure ⟨.other, none⟩) 3 1 =
      ⟨.error (.attributeError "NoneType object has no attribute content"), 1, []⟩ := rfl

/-- Loop invariant for claim C2: when every attempt fails retryably, the
loop started at `attempt_num = a ≤ retry_limit` with enough fuel makes
`retry_limit - a + 1` attempts, sleeps after each but the last, and raises
the exhaustion error. -/
theorem apiCallLoop_all_retryable {α : Type} (transport : Nat → AttemptResult α)
    (retry_limit : Nat) (d : ℚ)
    (h2 : ∀ n, ∃ e, transport n = .failure e ∧ _retryable_error e = true) :
    ∀ fuel a, a ≤ retry_limit → retry_limit - a < fuel →
      apiCallLoop transport retry_limit d fuel a =
        ⟨.error (.airflowException (retriesExhaustedMsg retry_limit)),
          retry_limit - a + 1, List.replicate (retry_limit - a) d⟩ := by
  intro fuel
  induction fuel with
  | zero => intro a _ hf; omega
  | succ fuel ih =>
    intro a ha hf
    obtain ⟨e, he, hr⟩ := h2 a
    by_cases hend : a = retry_limit
    · subst hend
      simp [apiCallLoop, he, hr]
    · have ha1 : a + 1 ≤ retry_limit := by omega
      have hf1 : retry_limit - (a + 1) < fuel := by omega
      have hcount : retry_limit - a = (retry_limit - (a + 1)) + 1 := by omega
      simp only [apiCallLoop, he, hr, if_neg hend,
        ih (a + 1) ha1 hf1, hcount, List.replicate_succ]
      simp

/-- Claim C2: for every `retry_limit ≥ 1`, if every attempt fails with a
retryable error (for instance a transport always answering HTTP 500), the
call makes exactly `retry_limit` attempts and then raises the
retry-exhaustion `AirflowException`. -/
theorem do_api_call_retry_exhaustion {α : Type} (transport : Nat → AttemptResult α)
    (retry_limit : Nat) (d : ℚ) (h1 : 1 ≤ retry_limit)
    (h2 : ∀ n, ∃ e, transport n = .failure e ∧ _retryable_error e = true) :
    (_do_api_call transport retry_limit d).outcome =
      .error (.airflowException (retriesExhaustedMsg retry_limit))
    ∧ (_do_api_call transport retry_limit d).attempts = retry_limit := by
  have h := apiCallLoop_all_retryable transport retry_limit d h2
    (retry_limit + 1) 1 h1 (by omega)
  unfold _do_api_call
  rw [h]
  exact ⟨rfl, by simp; omega⟩

/-- Instantiation of `do_api_call_retry_exhaustion`: with `retry_limit = 2`
and a transport that always answers HTTP 500, the call fails after exactly
2 attempts with the exhaustion error. -/
theorem do_api_call_retry_exhaustion_witness :
    (_do_api_call (α := Unit)
        (fun _ => .failure ⟨.other, some ⟨500, "err"⟩⟩) 2 1).outcome =
      .error (.airflowException (retriesExhaustedMsg 2))
    ∧ (_do_api_call (α := Unit)
        (fun _ => .failure ⟨.other, some ⟨500, "err"⟩⟩) 2 1).attempts = 2 :=
  do_api_call_retry_exhaustion _ 2 1 (by decide)
    (fun _ => ⟨⟨.other, some ⟨500, "err"⟩⟩, rfl, rfl⟩)

/-- Claim C3: with `retry_limit = 3` and a transport answering HTTP 500 on
attempts 1 and 2 and succeeding with body `body` on attempt 3, the call
returns that decoded body after 3 attempts and sleeps exactly twice, each
time for `retry_delay` seconds. -/
theorem do_api_call_retries_then_succeeds (α : Type) (body : α) (d : ℚ) :
    _do_api_call
        (fun n => if n ≤ 2 then .failure ⟨.other, some ⟨500, "err"⟩⟩
                  else .success body) 3 d =
      ⟨.ok body, 3, [d, d]⟩ := rfl

/-- Claim C4: for every `retry_limit ≥ 1` and every `retry_delay`, a
transport whose first attempt raises an HTTP 404 error makes exactly one
attempt: the `AirflowException` carrying the response body and status code
404 is raised immediately, with no retry and no sleep. -/
theorem do_api_call_fatal_404 (α : Type) (transport : Nat → AttemptResult α)
    (retry_limit : Nat) (d : ℚ) (body : String) (h1 : 1 ≤ retry_limit)
    (h2 : transport 1 = .failure ⟨.other, some ⟨404, body⟩⟩) :
    _do_api_call transport retry_limit d =
      ⟨.error (.airflowException
          ("Response: " ++ body ++ ", Status Code: " ++ toString (404 : Nat))),
        1, []⟩ := by
  unfold _do_api_call
  simp [apiCallLoop, h2, _retryable_error, nonRetryableRaise]

/-- Instantiation of `do_api_call_fatal_404` at `retry_limit = 2` and a
transport that always answers 404 with body NOT_FOUND. -/
theorem do_api_call_fatal_404_witness :
    _do_api_call (α := Unit) (fun _ => .failure ⟨.other, some ⟨404, "NOT_FOUND"⟩⟩) 2 1 =
      ⟨.error (.airflowException
          ("Response: " ++ "NOT_FOUND" ++ ", Status Code: " ++ toString (404 : Nat))),
        1, []⟩ :=
  do_api_call_fatal_404 Unit _ 2 1 "NOT_FOUND" (by decide) rfl

/-- Claim C6: constructing a `DatabricksHook` with `retry_limit < 1` raises
the `ValueError` configuration error at construction time, before any call
is made; constructing with `retry_limit ≥ 1` succeeds and stores the
configuration unchanged. -/
theorem hook_init_retry_limit_validation (cid : String) (ts : Int) (rl : Int)
    (rd : ℚ) :
    (rl < 1 → DatabricksHook.init cid ts rl rd =
      .error (.valueError "Retry limit must be greater than equal to 1"))
    ∧ (1 ≤ rl → DatabricksHook.init cid ts rl rd = .ok ⟨cid, ts, rl, rd⟩) := by
  refine ⟨fun h => ?_, fun h => ?_⟩
  · unfold DatabricksHook.init
    rw [if_pos h]
  · unfold DatabricksHook.init
    rw [if_neg (by omega)]

/-- Instantiation of `hook_init_retry_limit_validation`: `retry_limit = 0`
is rejected with the `ValueError`, `retry_limit = 3` is accepted. -/
theorem hook_init_retry_limit_validation_witness :
    DatabricksHook.init "databricks_default" 180 0 1 =
      .error (.valueError "Retry limit must be greater than equal to 1")
    ∧ DatabricksHook.init "databricks_default" 180 3 1 =
      .ok ⟨"databricks_default", 180, 3, 1⟩ :=
  ⟨(hook_init_retry_limit_validation "databricks_default" 180 0 1).1 (by decide),
    (hook_init_retry_limit_validation "databricks_default" 180 3 1).2 (by decide)⟩

/-- Modelled external collaborator (the connection returned by
`BaseHook.get_connection`): the fields `_do_api_call` reads — `host`,
`login`, `password` and the parsed JSON extra dictionary `extra_dejson`,
modelled as an association list with string values. -/
structure Connection where
  host : String
  login : String
  password : String
  extra_dejson : List (String × String)
deriving DecidableEq, Repr

/-- The two authentication strategies `_do_api_call` can pick: the
`_TokenAuth(token)` object or the `(login, password)` basic-auth pair that
the `requests` library turns into HTTP Basic credentials. -/
inductive AuthStrategy where
  | token (t : String)
  | basic (login password : String)
deriving DecidableEq, Repr

/-- Embeds the auth-selection branch of `_do_api_call`: when the key
`token` is in `extra_dejson`, use `_TokenAuth` with its value, otherwise
use the `(login, password)` tuple. -/
def resolveAuth (conn : Connection) : AuthStrategy :=
  match conn.extra_dejson.lookup "token" with
  | some t => .token t
  | none => .basic conn.login conn.password

/-- Request headers, as written by `requests` when signing: a header
assignment `r.headers[k] = v` replaces any previous value of `k`. -/
def setHeader (headers : List (String × String)) (k v : String) :
    List (String × String) :=
  (k, v) :: headers.filter (fun p => p.1 ≠ k)

/-- Embeds `_TokenAuth.__call__`: set the `Authorization` header of the
prepared request to `Bearer ` followed by the token and return the
request. -/
def tokenAuthCall (token : String) (headers : List (String × String)) :
    List (String × String) :=
  setHeader headers "Authorization" ("Bearer " ++ token)

/-- Claim C7: for every connection config, when `extra_dejson` carries a
`token` key the request is signed by `_TokenAuth`, which sets the header
`Authorization: Bearer <token>`; when it carries none, the request is
signed with the HTTP Basic pair built from the config's login and
password. -/
theorem auth_selection_spec (conn : Connection) :
    (∀ t, conn.extra_dejson.lookup "token" = some t →
      resolveAuth conn = .token t ∧
        ∀ headers, (tokenAuthCall t headers).lookup "Authorization" =
          some ("Bearer " ++ t))
    ∧ (conn.extra_dejson.lookup "token" = none →
      resolveAuth conn = .basic conn.login conn.password) := by
  refine ⟨fun t ht => ⟨?_, fun headers => ?_⟩, fun ht => ?_⟩
  · simp [resolveAuth, ht]
  · simp [tokenAuthCall, setHeader, List.lookup]
  · simp [resolveAuth, ht]

/-- Instantiation of `auth_selection_spec` at a config carrying a token
(Bearer header produced on an empty header list) and at a config without
one (basic credentials picked). -/
theorem auth_selection_spec_witness :
    (resolveAuth ⟨"h", "l", "p", [("token", "sec")]⟩ = .token "sec"
      ∧ (tokenAuthCall "sec" []).lookup "Authorization" = some ("Bearer " ++ "sec"))
    ∧ resolveAuth ⟨"h", "l", "p", []⟩ = .basic "l" "p" :=
  ⟨⟨((auth_selection_spec ⟨"h", "l", "p", [("token", "sec")]⟩).1 "sec" rfl).1,
      ((auth_selection_spec ⟨"h", "l", "p", [("token", "sec")]⟩).1 "sec" rfl).2 []⟩,
    (auth_selection_spec ⟨"h", "l", "p", []⟩).2 rfl⟩

/-- Scheme characters accepted by `urllib.parse`: ASCII letters, digits,
`+`, `-` and `.`. -/
def schemeChar (c : Char) : Bool :=
  c.isAlpha || c.isDigit || c == '+' || c == '-' || c == '.'

/-- Modelled from the external `urllib.parse.urlsplit`: drop a leading
`scheme:` when the text before the first colon is a nonempty run of scheme
characters; otherwise leave the input unchanged. -/
def stripScheme (l : List Char) : List Char :=
  match l.dropWhile schemeChar with
  | ':' :: rest => if l.takeWhile schemeChar = [] then l else rest
  | _ => l

/-- A character that may appear inside a netloc: anything but the `/`, `?`
and `#` delimiters of `urlsplit`. -/
def netlocChar (c : Char) : Bool :=
  !(c == '/' || c == '?' || c == '#')

/-- The part of a netloc after the last `@`, as computed by the
`rpartition` call of the hostname extraction of `urllib.parse`. -/
def afterLastAt (l : List Char) : List Char :=
  (l.reverse.takeWhile (fun c => c != '@')).reverse

/-- ASCII lower-casing, the fragment of `str.lower` relevant to
hostnames. -/
def lowerChar (c : Char) : Char :=
  match c with
  | 'A' => 'a' | 'B' => 'b' | 'C' => 'c' | 'D' => 'd' | 'E' => 'e' | 'F' => 'f'
  | 'G' => 'g' | 'H' => 'h' | 'I' => 'i' | 'J' => 'j' | 'K' => 'k' | 'L' => 'l'
  | 'M' => 'm' | 'N' => 'n' | 'O' => 'o' | 'P' => 'p' | 'Q' => 'q' | 'R' => 'r'
  | 'S' => 's' | 'T' => 't' | 'U' => 'u' | 'V' => 'v' | 'W' => 'w' | 'X' => 'x'
  | 'Y' => 'y' | 'Z' => 'z'
  | other => other

/-- Modelled from the external `urllib.parse`: the `hostname` of a netloc
is the part after the last `@`, truncated at the port colon and
lower-cased; it is `None` when that part is empty.  (The bracketed IPv6
form is not modelled; no claim involves it.) -/
def hostnameOfNetloc (n : List Char) : Option (List Char) :=
  if ((afterLastAt n).takeWhile (fun c => c != ':')).isEmpty then none
  else some (((afterLastAt n).takeWhile (fun c => c != ':')).map lowerChar)

/-- Modelled from the external `urllib.parse.urlparse(...).hostname`: after
scheme stripping, a netloc exists only when the remainder starts with
`//`, and runs to the next `/`, `?` or `#`. -/
def urlparseHostname (l : List Char) : Option (List Char) :=
  match stripScheme l with
  | '/' :: '/' :: r => hostnameOfNetloc (r.takeWhile netlocChar)
  | _ => none

/-- Embeds `DatabricksHook._parse_host` on character lists: the parsed
hostname when it is truthy, the input returned verbatim otherwise. -/
def parseHostChars (l : List Char) : List Char :=
  match urlparseHostname l with
  | some h => h
  | none => l

/-- Embeds the static method `DatabricksHook._parse_host`. -/
def _parse_host (s : String) : String :=
  String.mk (parseHostChars s.data)

/-- `lowerChar` maps no character to `/` except `/` itself. -/
theorem lowerChar_ne_slash {c : Char} (h : c ≠ '/') : lowerChar c ≠ '/' := by
  unfold lowerChar
  split <;> first | decide | exact h

/-- `lowerChar` maps no character to `:` except `:` itself. -/
theorem lowerChar_ne_colon {c : Char} (h : c ≠ ':') : lowerChar c ≠ ':' := by
  unfold lowerChar
  split <;> first | decide | exact h

/-- Every character of a parsed hostname avoids `/` and `:`. -/
theorem urlparseHostname_chars {l h : List Char}
    (hl : urlparseHostname l = some h) : ∀ c ∈ h, c ≠ '/' ∧ c ≠ ':' := by
  intro c hc
  unfold urlparseHostname at hl
  split at hl
  case h_1 r heq =>
    unfold hostnameOfNetloc at hl
    split at hl
    case isTrue => exact absurd hl (by simp)
    case isFalse hne =>
      obtain ⟨rfl⟩ := Option.some.injEq .. ▸ hl
      rw [List.mem_map] at hc
      obtain ⟨c', hc', rfl⟩ := hc
      have hcolon : c' ≠ ':' := by
        have := List.mem_takeWhile_imp hc'
        simpa using this
      have hmem : c' ∈ r.takeWhile netlocChar := by
        have h1 : c' ∈ afterLastAt (r.takeWhile netlocChar) :=
          List.takeWhile_subset _ hc'
        unfold afterLastAt at h1
        rw [List.mem_reverse] at h1
        have h2 := List.takeWhile_subset _ h1
        rwa [List.mem_reverse] at h2
      have hslash : c' ≠ '/' := by
        have := List.mem_takeWhile_imp hmem
        unfold netlocChar at this
        simp at this
        exact this.1.1
      exact ⟨lowerChar_ne_slash hslash, lowerChar_ne_colon hcolon⟩
  case h_2 => exact absurd hl (by simp)

/-- A list free of `/` and `:` parses to no hostname: it can hold no
scheme colon and cannot start with `//`. -/
theorem urlparseHostname_of_no_special {h : List Char}
    (hs : ∀ c ∈ h, c ≠ '/' ∧ c ≠ ':') : urlparseHostname h = none := by
  have hstrip : stripScheme h = h := by
    unfold stripScheme
    split
    case h_1 rest heq =>
      have hmem : ':' ∈ h := by
        apply List.dropWhile_subset schemeChar
        rw [heq]
        exact List.mem_cons_self _ _
      exact absurd rfl (hs ':' hmem).2
    case h_2 => rfl
  unfold urlparseHostname
  rw [hstrip]
  split
  case h_1 r => exact absurd rfl (hs '/' (List.mem_cons_self _ _)).1
  case h_2 => rfl

/-- `parseHostChars` is idempotent. -/
theorem parseHostChars_idem (l : List Char) :
    parseHostChars (parseHostChars l) = parseHostChars l := by
  cases hl : urlparseHostname l with
  | none => simp [parseHostChars, hl]
  | some h =>
    have h1 : parseHostChars l = h := by simp [parseHostChars, hl]
    have h2 : urlparseHostname h = none :=
      urlparseHostname_of_no_special (urlparseHostname_chars hl)
    rw [h1]
    simp [parseHostChars, h2]

/-- Claim C8: `_parse_host` extracts the hostname when the input parses as
a URL with a hostname component and returns the input verbatim otherwise;
in particular it maps `https://xx.cloud.databricks.com` and the bare
`xx.cloud.databricks.com` both to `xx.cloud.databricks.com`, and it is
idempotent on every host string. -/
theorem parse_host_spec :
    _parse_host "https://xx.cloud.databricks.com" = "xx.cloud.databricks.com"
    ∧ _parse_host "xx.cloud.databricks.com" = "xx.cloud.databricks.com"
    ∧ (∀ h : String, urlparseHostname h.data = none → _parse_host h = h)
    ∧ (∀ h : String, ∀ x, urlparseHostname h.data = some x →
        _parse_host h = String.mk x)
    ∧ (∀ h : String, _parse_host (_parse_host h) = _parse_host h) := by
  refine ⟨by decide, by decide, fun h hh => ?_, fun h x hh => ?_, fun h => ?_⟩
  · show String.mk (parseHostChars h.data) = h
    rw [show parseHostChars h.data = h.data by simp [parseHostChars, hh]]
  · show String.mk (parseHostChars h.data) = String.mk x
    rw [show parseHostChars h.data = x by simp [parseHostChars, hh]]
  · show String.mk (parseHostChars (String.mk (parseHostChars h.data)).data) =
      String.mk (parseHostChars h.data)
    rw [show (String.mk (parseHostChars h.data)).data = parseHostChars h.data from rfl,
      parseHostChars_idem]

/-- Instantiation of the conditional parts of `parse_host_spec`: the bare
hostname has no URL hostname component and is returned verbatim, while the
`https` URL has one that is extracted. -/
theorem parse_host_spec_witness :
    _parse_host "xx.cloud.databricks.com" = "xx.cloud.databricks.com"
    ∧ _parse_host "https://xx.cloud.databricks.com" =
        String.mk "xx.cloud.databricks.com".data :=
  ⟨parse_host_spec.2.2.1 "xx.cloud.databricks.com" (by decide),
    parse_host_spec.2.2.2.1 "https://xx.cloud.databricks.com"
      "xx.cloud.databricks.com".data (by decide)⟩
